import Mathlib

/-!
# Verification of the Personal Agent Remote Session Gateway

A shallow embedding, in Lean 4, of the core state and operations of the
`personalagent` repository: the managed-service supervisor
(`src/services/ServiceManager.ts`), the PTY pool (`src/services/PTYManager.ts`),
the remote WebSocket server (`src/services/RemoteServer.ts`: origin filter,
authentication gate, message router, event fan-out, global session-ownership
map), and the client SDK (`vscode-extension/src/AgentClient.ts`).

JavaScript `Map` objects are embedded as association lists with map-style
`set`/`delete`/`get` helpers; JavaScript `Set` objects as lists of ids where
only membership matters; machine integers and timestamps as `Nat`;
`null`/`undefined`-able values as `Option`.  Each definition carries a note
naming the source function it translates.
-/

namespace PersonalAgent

/-! ## Association-list embedding of JavaScript `Map` -/

/-- `Map.delete k`: remove the entry for key `k`. -/
def mapDelete (k : String) : List (String × String) → List (String × String)
  | [] => []
  | e :: tl => if e.1 = k then mapDelete k tl else e :: mapDelete k tl

/-- `Map.set k v`: replace any entry for key `k` by `(k, v)`. -/
def mapSet (k v : String) (m : List (String × String)) : List (String × String) :=
  (k, v) :: mapDelete k m

/-- `Map.get k`: first entry for key `k`, `none` for a missing key
(JS `undefined`). -/
def mapGet (k : String) : List (String × String) → Option String
  | [] => none
  | e :: tl => if e.1 = k then some e.2 else mapGet k tl

theorem mapGet_mapDelete_self (k : String) (m : List (String × String)) :
    mapGet k (mapDelete k m) = none := by
  induction m with
  | nil => rfl
  | cons e tl ih =>
    by_cases he : e.1 = k
    · rw [mapDelete, if_pos he, ih]
    · rw [mapDelete, if_neg he, mapGet, if_neg he, ih]

theorem mapGet_mapDelete_ne (k k' : String) (m : List (String × String)) (h : k ≠ k') :
    mapGet k (mapDelete k' m) = mapGet k m := by
  induction m with
  | nil => rfl
  | cons e tl ih =>
    by_cases he : e.1 = k'
    · have hek : ¬ e.1 = k := by rw [he]; exact Ne.symm h
      rw [mapDelete, if_pos he, ih, mapGet, if_neg hek]
    · by_cases hek : e.1 = k
      · rw [mapDelete, if_neg he, mapGet, if_pos hek, mapGet, if_pos hek]
      · rw [mapDelete, if_neg he, mapGet, if_neg hek, mapGet, if_neg hek, ih]

theorem mapGet_mapSet_self (k v : String) (m : List (String × String)) :
    mapGet k (mapSet k v m) = some v := by
  simp [mapGet, mapSet]

theorem mapGet_mapSet_ne (k k' v : String) (m : List (String × String)) (h : k ≠ k') :
    mapGet k (mapSet k' v m) = mapGet k m := by
  simp only [mapGet, mapSet]
  rw [if_neg (fun hkk => h hkk.symm)]
  exact mapGet_mapDelete_ne k k' m h

/-! ## ServiceManager (`src/services/ServiceManager.ts`) -/

/-- The four values of the `status` field of `ServiceStatus`. -/
inductive StatusKind where
  | stopped
  | starting
  | running
  | error
deriving DecidableEq, Repr

/-- `ServiceStatus` from `src/shared/types.ts`: the queryable snapshot. -/
structure ServiceStatus where
  id : String
  name : String
  status : StatusKind
  pid : Option Nat := none
  uptime : Option Nat := none
  lastError : Option String := none
deriving DecidableEq, Repr

/-- `ServiceConfig`, the fields `ServiceManager` reads. -/
structure SvcConfig where
  id : String
  name : String
  command : String
  args : List String := []
  restartOnFailure : Bool := false
deriving DecidableEq, Repr

/-- `ManagedService`: the per-service record held in `ServiceManager.services`.
`process` is the child handle, embedded as its pid; `startTime` is
milliseconds since epoch (`null` when not running). -/
structure ManagedService where
  config : SvcConfig
  process : Option Nat := none
  status : ServiceStatus
  startTime : Option Nat := none
deriving DecidableEq, Repr

/-- `ServiceManager.registerService`: fresh entry with status `stopped`. -/
def registerService (config : SvcConfig) : ManagedService :=
  { config := config
    process := none
    status := { id := config.id, name := config.name, status := .stopped }
    startTime := none }

/-- The 5-second auto-restart delay hard-coded in the exit handler of
`ServiceManager.startService` (`setTimeout(() => this.startService(id), 5000)`). -/
def RESTART_DELAY_MS : Nat := 5000

/-- `ServiceManager.startService`, lines 38-97.  `spawnResult` stands for the
outcome of `child_process.spawn` (ok : pid, or the thrown error message) and
`now` for `Date.now()`.  Returns the updated record, the list of
`service:status` events emitted in order, and whether a child was spawned.
If the service is already `running` the function returns at once. -/
def startService (svc : ManagedService) (spawnResult : Except String Nat) (now : Nat) :
    ManagedService × List ServiceStatus × Bool :=
  if svc.status.status = .running then
    (svc, [], false)
  else
    let st1 : ServiceStatus := { svc.status with status := .starting }
    match spawnResult with
    | .ok pid =>
        let st2 : ServiceStatus := { st1 with status := .running, pid := some pid }
        ({ svc with process := some pid, startTime := some now, status := st2 },
         [st1, st2], true)
    | .error e =>
        let st2 : ServiceStatus := { st1 with status := .error, lastError := some e }
        ({ svc with status := st2 }, [st1, st2], true)

/-- The `proc.on('exit', ...)` handler installed by `startService`
(lines 78-88): sets status to `stopped`, clears `process` and `startTime`,
emits `service:status`, and — when `restartOnFailure` is set and the exit
code is not `0` (in JS, `code !== 0`, which is also true for a `null` code
from a signal kill) — schedules `startService` again after
`RESTART_DELAY_MS`.  The returned `Bool` records whether such a restart
timer was scheduled; the source keeps no handle to this timer, so nothing
can cancel it. -/
def onServiceExit (svc : ManagedService) (exitCode : Option Int) :
    ManagedService × List ServiceStatus × Bool :=
  let st : ServiceStatus := { svc.status with status := .stopped }
  ({ svc with status := st, process := none, startTime := none },
   [st],
   svc.config.restartOnFailure && exitCode ≠ some 0)

/-- `ServiceManager.stopService` (lines 99-125) applied to a service whose
child is alive: the `SIGTERM` makes the child exit (with a `null` code, the
JS value for a signal death), which runs the exit handler installed by
`startService` (`onServiceExit`) and then the `once('exit')` handler of
`stopService` itself, which clears `process`, sets `stopped` and emits one
more status event.  Neither handler cancels a scheduled restart timer. -/
def stopRunningService (svc : ManagedService) (exitCode : Option Int) :
    ManagedService × List ServiceStatus × Bool :=
  let r1 := onServiceExit svc exitCode
  let s1 := r1.1
  let st : ServiceStatus := { s1.status with status := .stopped }
  ({ s1 with process := none, status := st }, r1.2.1 ++ [st], r1.2.2)

/-- JavaScript truthiness of a `number | null` value: `null` and `0` are
falsy.  `getStatus` guards on `if (service.startTime)`. -/
def jsTruthy : Option Nat → Bool
  | none => false
  | some t => t ≠ 0

/-- `ServiceManager.getStatus` (lines 132-141): when `startTime` is truthy,
overwrite the stored `status.uptime` with `now - startTime` (the mutation
persists in the stored record); then return a copy of the stored status.
The `uptime` field is never cleared elsewhere. -/
def getStatus (svc : ManagedService) (now : Nat) : ServiceStatus × ManagedService :=
  if jsTruthy svc.startTime then
    let st : ServiceStatus :=
      { svc.status with uptime := some (now - svc.startTime.getD 0) }
    (st, { svc with status := st })
  else
    (svc.status, svc)

/-! ## Origin filter (`RemoteServer.setupWebSocket` / `isInTailscaleRange`,
`src/services/RemoteServer.ts` lines 313-366 and 748-763) -/

/-- JavaScript `String.prototype.split('.')` on the character list of a
string (single-character separator; `"".split('.') = [""]`). -/
def splitOnDot : List Char → List (List Char)
  | [] => [[]]
  | c :: rest =>
    if c = '.' then [] :: splitOnDot rest
    else
      match splitOnDot rest with
      | [] => [[c]]
      | p :: ps => (c :: p) :: ps

/-- The body of `RemoteServer.normalizeIP`: strip an IPv6-mapped-IPv4
prefix (`ip.substring(7)` after `ip.startsWith('::ffff:')`). -/
def stripMapped (ip : List Char) : List Char :=
  if ("::ffff:".data).isPrefixOf ip then ip.drop 7 else ip

/-- `RemoteServer.normalizeIP` (lines 748-754). -/
def normalizeIP (ip : String) : String :=
  ⟨stripMapped ip.data⟩

/-- Decimal value of a digit string, most significant first. -/
def decDigits (s : List Char) : Nat :=
  s.foldl (fun n c => n * 10 + (c.toNat - 48)) 0

/-- JavaScript `Number(s)` on the string shapes that reach
`isInTailscaleRange` (components of a peer socket address split on `"."`):
the empty string is `0`, a run of decimal digits is its value, and any
component containing a non-digit (letters, `:` from IPv6 forms) is `NaN`,
embedded as `none`.  (Exotic `Number` inputs — hex, signs, whitespace — do
not occur in socket address components and are mapped to `none`.) -/
def jsNumber (s : List Char) : Option Nat :=
  if s = [] then some 0
  else if s.all Char.isDigit then some (decDigits s)
  else none

/-- `RemoteServer.isInTailscaleRange` (lines 756-763): normalize, split on
`"."`, map through `Number`; require exactly 4 parts, `parts[0] === 100`,
and `64 <= parts[1] <= 127`.  A `NaN` part (`none`) fails every comparison,
as in JS. -/
def isInTailscaleRange (ip : String) : Bool :=
  match (splitOnDot (stripMapped ip.data)).map jsNumber with
  | [p0, p1, _p2, _p3] =>
      (p0 == some 100) &&
        (match p1 with
         | some b => decide (64 ≤ b) && decide (b ≤ 127)
         | none => false)
  | _ => false

/-- Outcome of the connection-admission check. -/
inductive AcceptResult where
  | rejected (code : Nat) (reason : String)
  | accepted (isLocal : Bool)
deriving DecidableEq, Repr

/-- The admission check run in the `wss.on('connection')` handler
(lines 319-342) before any message listener is installed, together with the
`isLocal` flag computed there from the same normalized address.  When
`restrictToTailscale` is set and the peer is neither localhost nor in the
Tailscale range, the socket is closed with code 4000. -/
def acceptConnection (restrictToTailscale : Bool) (ip : String) : AcceptResult :=
  let normalizedIP := normalizeIP ip
  let isLocalhost := normalizedIP == "127.0.0.1" || normalizedIP == "::1"
  if restrictToTailscale then
    if !isLocalhost && !isInTailscaleRange normalizedIP then
      .rejected 4000 "Connection not allowed from this address"
    else
      .accepted isLocalhost
  else
    .accepted isLocalhost

/-- Whether the connection survived the admission check. -/
def isAdmitted : AcceptResult → Bool
  | .accepted _ => true
  | .rejected _ _ => false

/-- A canonically rendered IPv4 octet: nonempty, decimal digits, no leading
zero, value at most 255. -/
def isCanonOctet (s : List Char) : Bool :=
  !(s == []) && s.all Char.isDigit &&
    (s == ['0'] || !(s.headD ' ' == '0')) && decide (decDigits s ≤ 255)

/-- A canonically rendered dotted-quad IPv4 address. -/
def isCanonQuad (p : String) : Bool :=
  let parts := splitOnDot p.data
  parts.length == 4 && parts.all isCanonOctet

/-- The `i`-th dotted component of `p`, as a number. -/
def octetAt (p : String) (i : Nat) : Nat :=
  decDigits ((splitOnDot p.data).getD i [])

/-- The spec-side admissible-origin predicate, written from the spec text
(§4.5 OriginFilter): the peer address equals `127.0.0.1` or `::1`, or is a
dotted-quad whose first octet is 100 and whose second octet lies in
64..127. -/
def specAdmissibleOrigin (p : String) : Prop :=
  p = "127.0.0.1" ∨ p = "::1" ∨
    (isCanonQuad p = true ∧ octetAt p 0 = 100 ∧ 64 ≤ octetAt p 1 ∧ octetAt p 1 ≤ 127)

instance (p : String) : Decidable (specAdmissibleOrigin p) := by
  unfold specAdmissibleOrigin
  infer_instance

/-! ## Authentication gate (`RemoteServer.handleAuth`, lines 403-470) -/

/-- `crypto.timingSafeEqual` on two equal-length byte buffers: XORs every
byte pair — no early exit — and reports whether all pairs were equal,
together with the number of byte comparisons performed (in `handleAuth` it
is only reached under the equal-length guard; on unequal lengths the real
function throws). -/
def timingSafeEqualCount (a b : List Nat) : Bool × Nat :=
  ((a.zip b).all (fun q => q.1 == q.2), a.length)

/-- The token check of `RemoteServer.handleAuth` (lines 411-416):
`tokenBuffer.length !== payloadBuffer.length || !crypto.timingSafeEqual(...)`.
`||` short-circuits, so with unequal lengths `timingSafeEqual` is never
reached and zero bytes are compared.  Returns (mismatch, bytes compared). -/
def tokenMismatchCount (stored presented : List Nat) : Bool × Nat :=
  if stored.length ≠ presented.length then (true, 0)
  else
    let r := timingSafeEqualCount stored presented
    (!r.1, r.2)

/-- `PTYSession` (`src/shared/types.ts`), the fields routing touches.
(`cwd`, `shell`, `createdAt` never influence routing or ownership.) -/
structure PTYSession where
  id : String
  name : String
  cols : Nat
  rows : Nat
deriving DecidableEq, Repr

/-- The auth frame payload.  `clientId := ""` embeds a JS `undefined` /
empty device id (both falsy). -/
structure AuthPayload where
  token : List Nat
  clientId : String
  deviceName : String
deriving DecidableEq, Repr

/-- `AuthenticatedClient` (RemoteServer lines 237-247), the fields the
router reads.  JS `Set`s of ids are lists in which only membership
matters. -/
structure AuthClient where
  id : String
  deviceId : String
  deviceName : String
  sessionSubscriptions : List String
  ownedSessions : List String
  serviceSubscriptions : List String
  isLocal : Bool
deriving DecidableEq, Repr

/-- Outcome of `handleAuth`: a socket close, or the registered client plus
the session list included in the `auth/success` reply (the reply also
carries the current service statuses, which no claim here touches). -/
inductive AuthOutcome where
  | closed (code : Nat) (reason : String)
  | success (client : AuthClient) (sessions : List PTYSession)
deriving DecidableEq, Repr

/-- `RemoteServer.handleAuth` (lines 403-470).  On token mismatch: close
4003.  Otherwise: `deviceId := payload.clientId || clientId`; rebuild
`ownedSessions` by scanning the global `sessionOwnership` entries whose
value is `deviceId`; `sessionSubscriptions := new Set(ownedSessions)`;
the reply lists all pool sessions for a local client, else the pool
sessions whose recorded owner is `deviceId`. -/
def handleAuth (authToken : List Nat) (ownership : List (String × String))
    (pool : List PTYSession) (connId : String) (payload : AuthPayload)
    (isLocal : Bool) : AuthOutcome :=
  if (tokenMismatchCount authToken payload.token).1 then
    .closed 4003 "Invalid authentication token"
  else
    let deviceId := if payload.clientId = "" then connId else payload.clientId
    let owned := (ownership.filter (fun e => e.2 == deviceId)).map Prod.fst
    let client : AuthClient :=
      { id := connId
        deviceId := deviceId
        deviceName := payload.deviceName
        sessionSubscriptions := owned
        ownedSessions := owned
        serviceSubscriptions := []
        isLocal := isLocal }
    let deviceSessions :=
      if isLocal then pool
      else pool.filter (fun s => mapGet s.id ownership == some deviceId)
    .success client deviceSessions

/-! ## Origin filter lemmas and the admission theorem -/

theorem length_eq_four {α : Type} {l : List α} (h : l.length = 4) :
    ∃ a b c d, l = [a, b, c, d] := by
  match l, h with
  | [a, b, c, d], _ => exact ⟨a, b, c, d, rfl⟩

theorem jsNumber_canon (s : List Char) (h : isCanonOctet s = true) :
    jsNumber s = some (decDigits s) := by
  simp only [isCanonOctet, Bool.and_eq_true] at h
  unfold jsNumber
  rw [if_neg (by simpa using h.1.1.1), if_pos h.1.1.2]

theorem acceptConnection_cases (r : Bool) (ip : String) :
    acceptConnection r ip =
        .rejected 4000 "Connection not allowed from this address" ∨
      ∃ l, acceptConnection r ip = .accepted l := by
  simp only [acceptConnection]
  split
  · split
    · exact Or.inl rfl
    · exact Or.inr ⟨_, rfl⟩
  · exact Or.inr ⟨_, rfl⟩

/-- C2.  Origin admission: with `restrictToTailscale = false` every origin
is accepted.  With it `true`, a peer address `p` (already in post-strip
form: `::1`, or a canonical dotted-quad, which never carries the `::ffff:`
prefix) is admitted iff it is `127.0.0.1`, `::1`, or a dotted-quad with
first octet 100 and second octet in 64..127; otherwise the connection is
closed with code 4000 in the connection handler, before any frame is
processed.  The four boundary addresses of the claim are evaluated
explicitly. -/
theorem origin_admission_spec :
    (∀ ip : String, isAdmitted (acceptConnection false ip) = true) ∧
    (∀ p : String,
      (p = "::1" ∨ (isCanonQuad p = true ∧ ("::ffff:".data).isPrefixOf p.data = false)) →
      ((isAdmitted (acceptConnection true p) = true ↔ specAdmissibleOrigin p) ∧
        (¬ specAdmissibleOrigin p →
          acceptConnection true p =
            .rejected 4000 "Connection not allowed from this address"))) ∧
    isAdmitted (acceptConnection true "100.64.0.0") = true ∧
    isAdmitted (acceptConnection true "100.127.255.255") = true ∧
    isAdmitted (acceptConnection true "100.63.255.255") = false ∧
    isAdmitted (acceptConnection true "100.128.0.0") = false := by
  refine ⟨?_, ?_, by decide, by decide, by decide, by decide⟩
  · intro ip
    simp [acceptConnection, isAdmitted]
  · intro p hp
    have main : isAdmitted (acceptConnection true p) = true ↔ specAdmissibleOrigin p := by
      rcases hp with hv6 | ⟨hq, hnp⟩
      · subst hv6
        constructor
        · intro _; exact Or.inr (Or.inl rfl)
        · intro _; decide
      · have hq' := hq
        simp only [isCanonQuad, Bool.and_eq_true, beq_iff_eq, List.all_eq_true] at hq'
        obtain ⟨hlen, hall⟩ := hq'
        obtain ⟨s0, s1, s2, s3, hps⟩ := length_eq_four hlen
        have h0 : isCanonOctet s0 = true := hall s0 (by rw [hps]; simp)
        have h1 : isCanonOctet s1 = true := hall s1 (by rw [hps]; simp)
        have hstrip : stripMapped p.data = p.data := by
          simp [stripMapped, hnp]
        have hnorm : normalizeIP p = p := by
          unfold normalizeIP; rw [hstrip]
        have hv6' : p ≠ "::1" := by
          intro he; rw [he] at hq; exact absurd hq (by decide)
        have ho0 : octetAt p 0 = decDigits s0 := by
          unfold octetAt; rw [hps]; rfl
        have ho1 : octetAt p 1 = decDigits s1 := by
          unfold octetAt; rw [hps]; rfl
        have hts : isInTailscaleRange p = true ↔
            (decDigits s0 = 100 ∧ 64 ≤ decDigits s1 ∧ decDigits s1 ≤ 127) := by
          unfold isInTailscaleRange
          rw [hstrip, hps]
          simp only [List.map]
          rw [jsNumber_canon s0 h0, jsNumber_canon s1 h1]
          simp [Bool.and_eq_true, beq_iff_eq, decide_eq_true_iff, and_assoc]
        by_cases h127 : p = "127.0.0.1"
        · subst h127
          constructor
          · intro _; exact Or.inl rfl
          · intro _; decide
        · have hloc : (p == "127.0.0.1" || p == "::1") = false := by
            simp only [Bool.or_eq_false_iff]
            exact ⟨beq_eq_false_iff_ne.mpr h127, beq_eq_false_iff_ne.mpr hv6'⟩
          have hadm : isAdmitted (acceptConnection true p) = isInTailscaleRange p := by
            cases hts2 : isInTailscaleRange p with
            | true => simp [acceptConnection, hnorm, hloc, hts2, isAdmitted]
            | false => simp [acceptConnection, hnorm, hloc, hts2, isAdmitted]
          rw [hadm, hts]
          constructor
          · intro hd
            exact Or.inr (Or.inr ⟨hq, by rw [ho0]; exact hd.1,
              by rw [ho1]; exact hd.2.1, by rw [ho1]; exact hd.2.2⟩)
          · rintro (h | h | ⟨_, hc0, hc1, hc2⟩)
            · exact absurd h h127
            · exact absurd h hv6'
            · rw [ho0] at hc0; rw [ho1] at hc1 hc2
              exact ⟨hc0, hc1, hc2⟩
    refine ⟨main, ?_⟩
    intro hn
    rcases acceptConnection_cases true p with hcase | ⟨l, hcase⟩
    · exact hcase
    · exact absurd (main.mp (by rw [hcase]; rfl)) hn

/-- Witness for `origin_admission_spec`: the hypotheses are satisfiable at
the concrete Tailscale address `100.64.0.0` (admitted) and at
`100.128.0.0` (closed with 4000). -/
theorem origin_admission_spec_witness :
    (isAdmitted (acceptConnection true "100.64.0.0") = true ↔
      specAdmissibleOrigin "100.64.0.0") ∧
    acceptConnection true "100.128.0.0" =
      .rejected 4000 "Connection not allowed from this address" :=
  ⟨(origin_admission_spec.2.1 "100.64.0.0" (Or.inr ⟨by decide, by decide⟩)).1,
   (origin_admission_spec.2.1 "100.128.0.0" (Or.inr ⟨by decide, by decide⟩)).2
     (by decide)⟩

/-! ## Token comparison lemmas (shared by the auth theorems) -/

theorem zip_all_beq_iff (a : List Nat) : ∀ (b : List Nat), a.length = b.length →
    (((a.zip b).all (fun q => q.1 == q.2)) = true ↔ a = b) := by
  induction a with
  | nil =>
    intro b h
    cases b with
    | nil => simp
    | cons y ys => simp at h
  | cons x xs ih =>
    intro b h
    cases b with
    | nil => simp at h
    | cons y ys =>
      simp only [List.zip_cons_cons, List.all_cons, Bool.and_eq_true, beq_iff_eq,
        List.cons.injEq]
      exact and_congr Iff.rfl (ih ys (by simpa using h))

theorem tokenMismatchCount_fst_false_iff (stored presented : List Nat) :
    (tokenMismatchCount stored presented).1 = false ↔ stored = presented := by
  unfold tokenMismatchCount
  by_cases h : stored.length ≠ presented.length
  · rw [if_pos h]
    constructor
    · intro hc; exact absurd hc (by simp)
    · intro he; exact absurd (congrArg List.length he) h
  · rw [if_neg h]
    push_neg at h
    simp only [timingSafeEqualCount]
    constructor
    · intro hc
      exact (zip_all_beq_iff stored presented h).mp (by simpa using hc)
    · intro he
      simpa using (zip_all_beq_iff stored presented h).mpr he

theorem tokenMismatchCount_snd_eq (stored presented : List Nat) :
    (tokenMismatchCount stored presented).2 =
      if stored.length = presented.length then stored.length else 0 := by
  unfold tokenMismatchCount
  by_cases h : stored.length = presented.length
  · rw [if_neg (by simpa using h), if_pos h]; rfl
  · rw [if_pos h, if_neg h]

/-- C1.  The authentication token check: (i) the comparator accepts exactly
the stored token; (ii) the number of byte comparisons it performs is the
stored length on equal-length candidates and zero otherwise; (iii) on
unequal lengths it rejects having compared zero bytes (the length guard
short-circuits before `timingSafeEqual`); (iv) the comparison count is a
function of the candidate length alone, never of its contents
(constant-time in the candidate bytes); (v) any mismatching auth frame
closes the socket with code 4003 "Invalid authentication token". -/
theorem auth_token_constant_time :
    (∀ stored presented : List Nat,
      ((tokenMismatchCount stored presented).1 = false ↔ stored = presented)) ∧
    (∀ stored presented : List Nat,
      (tokenMismatchCount stored presented).2 =
        if stored.length = presented.length then stored.length else 0) ∧
    (∀ stored presented : List Nat, stored.length ≠ presented.length →
      tokenMismatchCount stored presented = (true, 0)) ∧
    (∀ stored cand cand' : List Nat, cand.length = cand'.length →
      (tokenMismatchCount stored cand).2 = (tokenMismatchCount stored cand').2) ∧
    (∀ (authToken : List Nat) (ownership : List (String × String))
        (pool : List PTYSession) (connId : String) (payload : AuthPayload)
        (isLocal : Bool), payload.token ≠ authToken →
      handleAuth authToken ownership pool connId payload isLocal =
        .closed 4003 "Invalid authentication token") := by
  refine ⟨tokenMismatchCount_fst_false_iff, tokenMismatchCount_snd_eq, ?_, ?_, ?_⟩
  · intro stored presented h
    unfold tokenMismatchCount
    rw [if_pos h]
  · intro stored cand cand' h
    rw [tokenMismatchCount_snd_eq, tokenMismatchCount_snd_eq, h]
  · intro authToken ownership pool connId payload isLocal h
    have hmm : (tokenMismatchCount authToken payload.token).1 = true := by
      cases hc : (tokenMismatchCount authToken payload.token).1 with
      | true => rfl
      | false =>
        exact absurd ((tokenMismatchCount_fst_false_iff _ _).mp hc).symm h
    unfold handleAuth
    rw [hmm, if_pos rfl]

/-- Witness for `auth_token_constant_time`: concrete evaluations of the
conditional conjuncts. -/
theorem auth_token_constant_time_witness :
    tokenMismatchCount [1, 2] [3] = (true, 0) ∧
    (tokenMismatchCount [1, 2] [9, 9]).2 = (tokenMismatchCount [1, 2] [1, 2]).2 ∧
    handleAuth [1, 2] [] [] "conn1" ⟨[3], "devA", "iPhone"⟩ false =
      .closed 4003 "Invalid authentication token" :=
  ⟨auth_token_constant_time.2.2.1 [1, 2] [3] (by decide),
   auth_token_constant_time.2.2.2.1 [1, 2] [9, 9] [1, 2] (by decide),
   auth_token_constant_time.2.2.2.2 [1, 2] [] [] "conn1" ⟨[3], "devA", "iPhone"⟩ false
     (by decide)⟩

/-! ## Session-ownership lookup lemmas (shared) -/

theorem mapGet_eq_some_iff_mem (m : List (String × String))
    (hnd : (m.map Prod.fst).Nodup) (k v : String) :
    mapGet k m = some v ↔ (k, v) ∈ m := by
  induction m with
  | nil => simp [mapGet]
  | cons e tl ih =>
    obtain ⟨k', v'⟩ := e
    simp only [List.map_cons, List.nodup_cons] at hnd
    obtain ⟨hk, hnd'⟩ := hnd
    by_cases hek : k' = k
    · subst hek
      rw [mapGet, if_pos rfl]
      simp only [Option.some.injEq, List.mem_cons, Prod.mk.injEq]
      constructor
      · intro hv; exact Or.inl ⟨trivial, hv.symm⟩
      · rintro (⟨-, hv⟩ | htl)
        · exact hv.symm
        · exact absurd (List.mem_map_of_mem Prod.fst htl) hk
    · rw [mapGet, if_neg hek, ih hnd']
      simp only [List.mem_cons, Prod.mk.injEq]
      constructor
      · exact Or.inr
      · rintro (⟨hkk, -⟩ | h)
        · exact absurd hkk.symm hek
        · exact h

theorem mem_rebuilt_owned_iff (ownership : List (String × String)) (d sid : String)
    (hnd : (ownership.map Prod.fst).Nodup) :
    (sid ∈ (ownership.filter (fun e => e.2 == d)).map Prod.fst) ↔
      mapGet sid ownership = some d := by
  rw [mapGet_eq_some_iff_mem ownership hnd sid d]
  simp only [List.mem_map, List.mem_filter, beq_iff_eq]
  constructor
  · rintro ⟨⟨k', v'⟩, ⟨hm, hv⟩, hfst⟩
    dsimp at hv hfst
    subst hv; subst hfst
    exact hm
  · intro hm
    exact ⟨(sid, d), ⟨hm, rfl⟩, rfl⟩

/-- C3.  The reconnection contract of `handleAuth` on success: the new
client's `ownedSessions` is exactly the set of session ids the global
ownership map attributes to the presented device id, `sessionSubscriptions`
starts as that same set, and the `auth/success` reply lists every live
session for a local client and exactly the live sessions owned by the
device for a remote client. -/
theorem reconnect_ownership_contract (authToken : List Nat)
    (ownership : List (String × String)) (pool : List PTYSession)
    (connId : String) (payload : AuthPayload) (isLocal : Bool)
    (htok : payload.token = authToken)
    (hnd : (ownership.map Prod.fst).Nodup) :
    ∃ c ss, handleAuth authToken ownership pool connId payload isLocal = .success c ss ∧
      c.deviceId = (if payload.clientId = "" then connId else payload.clientId) ∧
      (∀ sid, sid ∈ c.ownedSessions ↔ mapGet sid ownership = some c.deviceId) ∧
      c.sessionSubscriptions = c.ownedSessions ∧
      (isLocal = true → ss = pool) ∧
      (isLocal = false →
        ∀ s, s ∈ ss ↔ s ∈ pool ∧ mapGet s.id ownership = some c.deviceId) := by
  have hmm : (tokenMismatchCount authToken payload.token).1 = false :=
    (tokenMismatchCount_fst_false_iff _ _).mpr htok.symm
  unfold handleAuth
  rw [hmm]
  simp only [Bool.false_eq_true, if_false]
  refine ⟨_, _, rfl, rfl, ?_, rfl, ?_, ?_⟩
  · intro sid
    exact mem_rebuilt_owned_iff ownership _ sid hnd
  · intro h; rw [h]; simp
  · intro h; rw [h]
    intro s
    simp [List.mem_filter]

/-- Witness for `reconnect_ownership_contract` at a concrete state: device
`dA` reconnects while owning `s1` (live) and with `s3` live but unowned. -/
theorem reconnect_ownership_contract_witness :
    ∃ c ss,
      handleAuth [5] [("s1", "dA"), ("s2", "dB")]
          [⟨"s1", "t1", 80, 24⟩, ⟨"s3", "t3", 80, 24⟩] "connX"
          ⟨[5], "dA", "mac"⟩ false = .success c ss ∧
        c.deviceId = (if ("dA" : String) = "" then "connX" else "dA") ∧
        (∀ sid, sid ∈ c.ownedSessions ↔
          mapGet sid [("s1", "dA"), ("s2", "dB")] = some c.deviceId) ∧
        c.sessionSubscriptions = c.ownedSessions ∧
        (false = true → ss = [⟨"s1", "t1", 80, 24⟩, ⟨"s3", "t3", 80, 24⟩]) ∧
        (false = false → ∀ s, s ∈ ss ↔
          s ∈ [(⟨"s1", "t1", 80, 24⟩ : PTYSession), ⟨"s3", "t3", 80, 24⟩] ∧
            mapGet s.id [("s1", "dA"), ("s2", "dB")] = some c.deviceId) :=
  reconnect_ownership_contract [5] [("s1", "dA"), ("s2", "dB")]
    [⟨"s1", "t1", 80, 24⟩, ⟨"s3", "t3", 80, 24⟩] "connX" ⟨[5], "dA", "mac"⟩ false rfl
    (by decide)

/-! ## The PTY pool and the global session registry (C4)

The pool is embedded as the list of live session ids
(`PTYManager.sessions` keys); the registry as the `sessionOwnership`
association list.  Each transition is one synchronous handler run. -/

structure GatewayState where
  pool : List String
  ownership : List (String × String)
deriving DecidableEq, Repr

def initialGateway : GatewayState := ⟨[], []⟩

/-- Remote `pty/create` (RemoteServer lines 482-495):
`PTYManager.createSession` inserts the fresh id into the pool and the
handler records `sessionOwnership.set(session.id, client.deviceId)`. -/
def remoteCreate (st : GatewayState) (sid dev : String) : GatewayState :=
  { pool := if st.pool.contains sid then st.pool else sid :: st.pool
    ownership := mapSet sid dev st.ownership }

/-- Remote `pty/close` (lines 516-527): `PTYManager.closeSession` removes
the pool entry (a no-op for an unknown id) and the handler runs
`sessionOwnership.delete(sessionId)`. -/
def remoteClose (st : GatewayState) (sid : String) : GatewayState :=
  { pool := st.pool.filter (fun x => !(x == sid))
    ownership := mapDelete sid st.ownership }

/-- A PTY exit: `PTYManager` deletes the pool entry (lines 143-146) and the
`setupPTYForwarding` handler deletes the ownership entry (RemoteServer
lines 671-681). -/
def ptyExit (st : GatewayState) (sid : String) : GatewayState :=
  { pool := st.pool.filter (fun x => !(x == sid))
    ownership := mapDelete sid st.ownership }

/-- Desktop IPC `create-session` (`src/main/index.ts` line 358): calls
`ptyManager.createSession(options)` directly; no ownership entry is
recorded. -/
def ipcCreate (st : GatewayState) (sid : String) : GatewayState :=
  { pool := if st.pool.contains sid then st.pool else sid :: st.pool
    ownership := st.ownership }

/-- Desktop IPC `close-session` (`src/main/index.ts` line 359): calls
`ptyManager.closeSession(id)` directly; the ownership entry is only
removed later, when the killed PTY's exit event fires (`ptyExit`). -/
def ipcClose (st : GatewayState) (sid : String) : GatewayState :=
  { pool := st.pool.filter (fun x => !(x == sid))
    ownership := st.ownership }

/-- States reachable through the remote WebSocket path alone. -/
inductive RemoteReach : GatewayState → Prop where
  | init : RemoteReach initialGateway
  | create (st : GatewayState) (sid dev : String) :
      RemoteReach st → RemoteReach (remoteCreate st sid dev)
  | close (st : GatewayState) (sid : String) :
      RemoteReach st → RemoteReach (remoteClose st sid)
  | exited (st : GatewayState) (sid : String) :
      RemoteReach st → RemoteReach (ptyExit st sid)

/-- States reachable once the desktop IPC operations are included. -/
inductive GatewayReach : GatewayState → Prop where
  | init : GatewayReach initialGateway
  | create (st : GatewayState) (sid dev : String) :
      GatewayReach st → GatewayReach (remoteCreate st sid dev)
  | close (st : GatewayState) (sid : String) :
      GatewayReach st → GatewayReach (remoteClose st sid)
  | exited (st : GatewayState) (sid : String) :
      GatewayReach st → GatewayReach (ptyExit st sid)
  | ipcCreated (st : GatewayState) (sid : String) :
      GatewayReach st → GatewayReach (ipcCreate st sid)
  | ipcClosed (st : GatewayState) (sid : String) :
      GatewayReach st → GatewayReach (ipcClose st sid)

/-- C4 counterexample: the desktop IPC `create-session` path yields a
reachable state in which session `s1` is live in the pool yet
`sessionOwnership` records no owner for it, so the claimed pool/registry
equivalence fails for IPC-created sessions. -/
theorem pool_ownership_sync_counterexample :
    GatewayReach (ipcCreate initialGateway "s1") ∧
    ("s1" ∈ (ipcCreate initialGateway "s1").pool) ∧
    mapGet "s1" (ipcCreate initialGateway "s1").ownership = none :=
  ⟨GatewayReach.ipcCreated _ _ GatewayReach.init, by decide, by decide⟩

theorem mem_insertPool (pool : List String) (sid x : String) :
    x ∈ (if pool.contains sid then pool else sid :: pool) ↔ x = sid ∨ x ∈ pool := by
  by_cases h : pool.contains sid = true
  · rw [if_pos h]
    have hmem : sid ∈ pool := List.elem_iff.mp h
    constructor
    · exact Or.inr
    · rintro (rfl | hx)
      · exact hmem
      · exact hx
  · rw [if_neg h]
    simp [List.mem_cons]

theorem mem_removePool (pool : List String) (sid x : String) :
    x ∈ pool.filter (fun y => !(y == sid)) ↔ x ∈ pool ∧ x ≠ sid := by
  simp [List.mem_filter]

/-- C4 (amended).  For every state reachable through the remote WebSocket
operations alone, a session id is in the pool iff the global
`sessionOwnership` map records an owner for it. -/
theorem pool_ownership_sync_remote (st : GatewayState) (h : RemoteReach st) :
    ∀ sid, sid ∈ st.pool ↔ (mapGet sid st.ownership).isSome = true := by
  induction h with
  | init => intro sid; simp [initialGateway, mapGet]
  | create st0 sid0 dev h0 ih =>
    intro sid
    by_cases hs : sid = sid0
    · subst hs
      simp only [remoteCreate, mem_insertPool, mapGet_mapSet_self]
      simp
    · simp only [remoteCreate, mem_insertPool,
        mapGet_mapSet_ne sid sid0 dev st0.ownership hs]
      rw [ih sid]
      simp [hs]
  | close st0 sid0 h0 ih =>
    intro sid
    by_cases hs : sid = sid0
    · subst hs
      simp [remoteClose, mem_removePool, mapGet_mapDelete_self]
    · simp only [remoteClose, mem_removePool,
        mapGet_mapDelete_ne sid sid0 st0.ownership hs]
      rw [← ih sid]
      simp [hs]
  | exited st0 sid0 h0 ih =>
    intro sid
    by_cases hs : sid = sid0
    · subst hs
      simp [ptyExit, mem_removePool, mapGet_mapDelete_self]
    · simp only [ptyExit, mem_removePool,
        mapGet_mapDelete_ne sid sid0 st0.ownership hs]
      rw [← ih sid]
      simp [hs]

/-- Witness for `pool_ownership_sync_remote` at the state reached by one
remote create. -/
theorem pool_ownership_sync_remote_witness :
    "a" ∈ (remoteCreate initialGateway "a" "dev").pool ↔
      (mapGet "a" (remoteCreate initialGateway "a" "dev").ownership).isSome = true :=
  pool_ownership_sync_remote _ (RemoteReach.create _ _ _ RemoteReach.init) "a"

/-! ## Message router: pty write / resize / subscribe (C5) -/

/-- `RemoteServer.canAccessSession` (lines 472-476): local clients access
everything; remote clients need the session in their owned or subscribed
sets. -/
def canAccessSession (c : AuthClient) (sessionId : String) : Bool :=
  c.isLocal || c.ownedSessions.contains sessionId ||
    c.sessionSubscriptions.contains sessionId

/-- A frame sent back to the requesting client during routing; only the
`system/error` frames of `sendError` (lines 710-716) matter here. -/
inductive OutFrame where
  | systemError (error : String)
deriving DecidableEq, Repr

/-- JS `Set.add`: insert if not already present. -/
def setAdd (x : String) (s : List String) : List String :=
  if s.contains x then s else x :: s

/-- Result of routing one pty frame: updated client and pool, frames sent
back, and the write/resize calls that reached a live PTY. -/
structure RouteResult where
  client : AuthClient
  pool : List PTYSession
  sent : List OutFrame
  ptyWrites : List (String × String)
  ptyResizes : List (String × Nat × Nat)
deriving DecidableEq, Repr

/-- The `write` arm of `RemoteServer.handlePTYMessage` (lines 496-504):
access check first (error frame on failure), then `PTYManager.write`,
which silently ignores an unknown session id (lines 154-159). -/
def handleWrite (pool : List PTYSession) (c : AuthClient) (sessionId data : String) :
    RouteResult :=
  if !canAccessSession c sessionId then
    { client := c, pool := pool
      sent := [.systemError
        ("Access denied: You don\x27t have permission to write to session " ++ sessionId)]
      ptyWrites := [], ptyResizes := [] }
  else
    { client := c, pool := pool, sent := []
      ptyWrites := if pool.any (fun s => s.id == sessionId) then [(sessionId, data)] else []
      ptyResizes := [] }

/-- The `resize` arm (lines 505-515): the JS truthiness guard
`if (sessionId && cols && rows)`, then the access check, then
`PTYManager.resize` (lines 161-168), which updates the cached dimensions
only for a live session and silently ignores an unknown id. -/
def handleResize (pool : List PTYSession) (c : AuthClient) (sessionId : String)
    (cols rows : Nat) : RouteResult :=
  if !(sessionId == "") && !(cols == 0) && !(rows == 0) then
    if !canAccessSession c sessionId then
      { client := c, pool := pool
        sent := [.systemError
          ("Access denied: You don\x27t have permission to resize session " ++ sessionId)]
        ptyWrites := [], ptyResizes := [] }
    else
      { client := c
        pool := pool.map (fun s =>
          if s.id == sessionId then { s with cols := cols, rows := rows } else s)
        sent := []
        ptyWrites := []
        ptyResizes :=
          if pool.any (fun s => s.id == sessionId) then [(sessionId, cols, rows)] else [] }
  else
    { client := c, pool := pool, sent := [], ptyWrites := [], ptyResizes := [] }

/-- The `subscribe` arm (lines 528-540): a remote client must be the
recorded owner (`sessionOwnership.get(sessionId) !== client.deviceId`
fails also when the entry is absent); on success the id is added to the
subscription set, and to the owned set when the ownership entry matches. -/
def handleSubscribe (ownership : List (String × String)) (c : AuthClient)
    (sessionId : String) : AuthClient × List OutFrame :=
  if !c.isLocal && !(mapGet sessionId ownership == some c.deviceId) then
    (c, [.systemError ("Access denied: You don\x27t own session " ++ sessionId)])
  else
    let c1 := { c with sessionSubscriptions := setAdd sessionId c.sessionSubscriptions }
    let c2 :=
      if mapGet sessionId ownership == some c.deviceId then
        { c1 with ownedSessions := setAdd sessionId c1.ownedSessions }
      else c1
    (c2, [])

/-- C5 counterexample: an authenticated remote client with no owned or
subscribed sessions sends `pty/write` naming a session id that is not
live: the router sends an access-denied `system/error` frame, so the
write on an unknown session id is not a silent no-op for every
authenticated client. -/
theorem unknown_session_write_counterexample :
    (handleWrite [] ⟨"c1", "dA", "ph", [], [], [], false⟩ "ghost" "x").sent =
      [.systemError
        ("Access denied: You don\x27t have permission to write to session " ++ "ghost")] :=
  rfl

theorem map_id_of_dead (pool : List PTYSession) (sid : String)
    (hdead : ∀ s ∈ pool, s.id ≠ sid) (cols rows : Nat) :
    pool.map (fun s =>
      if s.id == sid then { s with cols := cols, rows := rows } else s) = pool := by
  induction pool with
  | nil => rfl
  | cons s tl ih =>
    have hs : (s.id == sid) = false := beq_eq_false_iff_ne.mpr (hdead s (by simp))
    simp only [List.map_cons, hs, Bool.false_eq_true, if_false, List.cons.injEq]
    exact ⟨trivial, ih (fun x hx => hdead x (by simp [hx]))⟩

theorem any_eq_false_of_dead (pool : List PTYSession) (sid : String)
    (hdead : ∀ s ∈ pool, s.id ≠ sid) :
    pool.any (fun s => s.id == sid) = false := by
  rw [List.any_eq_false]
  intro s hs
  simp [beq_eq_false_iff_ne.mpr (hdead s hs)]

/-- C5 (amended).  For a session id with no live session (and hence, by
the cleanup on close and exit, no ownership entry): a `write` or `resize`
frame is a silent no-op — no frame sent, no state changed, nothing
delivered to a PTY — exactly when the client passes the access check
(local, or the id in its owned/subscribed sets); when the access check
fails, an access-denied `system/error` frame is sent (and still nothing
reaches a PTY).  A `subscribe` frame from a remote client elicits a
`system/error` and leaves the client unchanged; a local client's
subscribe adds the dead id to its subscription set without any error. -/
theorem unknown_session_routing (pool : List PTYSession)
    (ownership : List (String × String)) (c : AuthClient) (sid data : String)
    (cols rows : Nat) (hdead : ∀ s ∈ pool, s.id ≠ sid)
    (hown : mapGet sid ownership = none) :
    ((canAccessSession c sid = true →
        handleWrite pool c sid data = ⟨c, pool, [], [], []⟩) ∧
      (canAccessSession c sid = false →
        handleWrite pool c sid data =
          ⟨c, pool,
            [.systemError
              ("Access denied: You don\x27t have permission to write to session " ++ sid)],
            [], []⟩)) ∧
    ((sid == "") = false → (cols == 0) = false → (rows == 0) = false →
      ((canAccessSession c sid = true →
          handleResize pool c sid cols rows = ⟨c, pool, [], [], []⟩) ∧
        (canAccessSession c sid = false →
          handleResize pool c sid cols rows =
            ⟨c, pool,
              [.systemError
                ("Access denied: You don\x27t have permission to resize session " ++ sid)],
              [], []⟩))) ∧
    ((c.isLocal = false →
        handleSubscribe ownership c sid =
          (c, [.systemError ("Access denied: You don\x27t own session " ++ sid)])) ∧
      (c.isLocal = true →
        handleSubscribe ownership c sid =
          ({ c with sessionSubscriptions := setAdd sid c.sessionSubscriptions }, []))) := by
  have hany := any_eq_false_of_dead pool sid hdead
  have hbeq : (mapGet sid ownership == some c.deviceId) = false := by
    rw [hown]; rfl
  refine ⟨⟨?_, ?_⟩, ?_, ?_, ?_⟩
  · intro hacc
    simp only [handleWrite, hacc, Bool.not_true, Bool.false_eq_true, if_false, hany]
  · intro hacc
    simp only [handleWrite, hacc, Bool.not_false, if_true]
  · intro h1 h2 h3
    constructor
    · intro hacc
      simp only [handleResize, h1, h2, h3, Bool.not_false, Bool.and_self, if_true,
        hacc, Bool.not_true, Bool.false_eq_true, if_false, hany,
        map_id_of_dead pool sid hdead cols rows]
    · intro hacc
      simp only [handleResize, h1, h2, h3, Bool.not_false, Bool.and_self, if_true,
        hacc, if_true]
  · intro hloc
    simp only [handleSubscribe, hloc, Bool.not_false, hbeq, Bool.and_self, if_true]
  · intro hloc
    simp only [handleSubscribe, hloc, Bool.not_true, Bool.false_and, Bool.false_eq_true,
      if_false, hbeq]

/-- Witness for `unknown_session_routing`: a remote client with no access
and a local client, both naming the dead id `ghost` over an empty pool and
registry. -/
theorem unknown_session_routing_witness :
    (handleWrite [] ⟨"c1", "dA", "ph", [], [], [], false⟩ "ghost" "x" =
      ⟨⟨"c1", "dA", "ph", [], [], [], false⟩, [],
        [.systemError
          ("Access denied: You don\x27t have permission to write to session " ++ "ghost")],
        [], []⟩) ∧
    (handleSubscribe [] ⟨"c2", "dB", "vs", [], [], [], true⟩ "ghost" =
      ({ (⟨"c2", "dB", "vs", [], [], [], true⟩ : AuthClient) with
          sessionSubscriptions := setAdd "ghost" [] }, [])) :=
  ⟨((unknown_session_routing [] [] ⟨"c1", "dA", "ph", [], [], [], false⟩ "ghost" "x" 1 1
      (by simp) rfl).1.2 rfl),
   ((unknown_session_routing [] [] ⟨"c2", "dB", "vs", [], [], [], true⟩ "ghost" "x" 1 1
      (by simp) rfl).2.2.2 rfl)⟩

/-! ## Event fan-out (C7) -/

theorem contains_true_iff_mem (l : List String) (a : String) :
    l.contains a = true ↔ a ∈ l :=
  List.elem_iff

/-- `RemoteServer.broadcastToSubscribers` (lines 724-730), used by the
`pty data` (and `exit`) forwarding of `setupPTYForwarding` (lines
662-682): the frame goes to exactly the clients whose
`sessionSubscriptions` contains the session id. -/
def dataRecipients (clients : List AuthClient) (sessionId : String) : List AuthClient :=
  clients.filter (fun c => c.sessionSubscriptions.contains sessionId)

/-- `RemoteServer.broadcast` (lines 718-722), used by the `service status`
forwarding of `setupServiceForwarding` (lines 684-692): every client in
the authenticated-clients map receives the frame.  (`this.clients` gains
entries only in `handleAuth` on success, so all of them are
authenticated.) -/
def statusRecipients (clients : List AuthClient) : List AuthClient :=
  clients

/-- `RemoteServer.broadcastToServiceSubscribers` (lines 732-738), used by
the `service output` forwarding (lines 694-701): the frame goes to exactly
the clients whose `serviceSubscriptions` contains the service id. -/
def outputRecipients (clients : List AuthClient) (serviceId : String) : List AuthClient :=
  clients.filter (fun c => c.serviceSubscriptions.contains serviceId)

/-- C7.  Fan-out routing: a pty `data` frame for a session reaches a
client iff that client subscribes to the session; a service `status`
frame reaches every authenticated client; a service `output` frame for a
service reaches a client iff that client subscribes to the service. -/
theorem event_fanout_routing (clients : List AuthClient) (c : AuthClient)
    (sessionId serviceId : String) :
    (c ∈ dataRecipients clients sessionId ↔
      c ∈ clients ∧ sessionId ∈ c.sessionSubscriptions) ∧
    (c ∈ statusRecipients clients ↔ c ∈ clients) ∧
    (c ∈ outputRecipients clients serviceId ↔
      c ∈ clients ∧ serviceId ∈ c.serviceSubscriptions) := by
  refine ⟨?_, Iff.rfl, ?_⟩
  · rw [dataRecipients, List.mem_filter, contains_true_iff_mem]
  · rw [outputRecipients, List.mem_filter, contains_true_iff_mem]

/-! ## Client SDK request timeouts (C9,
`vscode-extension/src/AgentClient.ts` lines 171-185) -/

/-- The hard-coded delay of the `setTimeout` in `AgentClient.request`:
10 000 ms.  The method accepts no caller-supplied duration. -/
def REQUEST_TIMEOUT_MS : Nat := 10000

/-- `AgentClient.request`: record the fresh request id in
`pendingRequests`, send the frame, and schedule the timeout callback
after `REQUEST_TIMEOUT_MS`.  Returns the new pending set and the
scheduled delay. -/
def sdkRequest (pending : List String) (requestId : String) : List String × Nat :=
  (requestId :: pending, REQUEST_TIMEOUT_MS)

/-- The timeout callback of `AgentClient.request`: if the request is
still pending, delete it and reject with the timeout error; otherwise do
nothing. -/
def fireRequestTimeout (pending : List String) (requestId : String) :
    List String × Option String :=
  if pending.contains requestId then
    (pending.filter (fun x => !(x == requestId)), some "Request timed out")
  else
    (pending, none)

/-- C9 counterexample: the delay scheduled for a concrete request is
10 000 ms, not the claimed 30-second default, and no caller-specified
duration exists. -/
theorem request_timeout_counterexample :
    (sdkRequest [] "r1").2 = 10000 ∧ REQUEST_TIMEOUT_MS ≠ 30000 :=
  ⟨rfl, by decide⟩

/-- C9 (amended).  Every SDK request schedules its timeout after the fixed
10 000 ms `REQUEST_TIMEOUT_MS`; when the timeout fires while the request
is still pending, the request is removed from the pending map and
rejected with "Request timed out"; if it was already answered, the
timeout does nothing. -/
theorem request_timeout_behavior (pending : List String) (requestId : String) :
    (sdkRequest pending requestId).2 = REQUEST_TIMEOUT_MS ∧
    (requestId ∈ pending →
      fireRequestTimeout pending requestId =
        (pending.filter (fun x => !(x == requestId)), some "Request timed out")) ∧
    (requestId ∉ pending → fireRequestTimeout pending requestId = (pending, none)) := by
  refine ⟨rfl, ?_, ?_⟩
  · intro h
    rw [fireRequestTimeout, if_pos ((contains_true_iff_mem pending requestId).mpr h)]
  · intro h
    rw [fireRequestTimeout, if_neg]
    intro hc
    exact h ((contains_true_iff_mem pending requestId).mp hc)

/-- Witness for `request_timeout_behavior` with request `r1` pending and
`r2` not pending. -/
theorem request_timeout_behavior_witness :
    (fireRequestTimeout ["r1"] "r1" =
      (["r1"].filter (fun x => !(x == "r1")), some "Request timed out")) ∧
    fireRequestTimeout ["r1"] "r2" = (["r1"], none) :=
  ⟨(request_timeout_behavior ["r1"] "r1").2.1 (by decide),
   (request_timeout_behavior ["r1"] "r2").2.2 (by decide)⟩

/-! ## Service supervisor theorems (C6, C8, C10) -/

/-- A registered service with `restartOnFailure`, currently running. -/
def demoRunningService : ManagedService :=
  { config :=
      { id := "svc", name := "Demo", command := "/bin/demo", args := []
        restartOnFailure := true }
    process := some 42
    status := { id := "svc", name := "Demo", status := .running, pid := some 42 }
    startTime := some 1000 }

/-- C6: the failing input evaluated.  Stopping a running service whose
config sets `restartOnFailure` makes the child exit from the SIGTERM with
a `null` exit code; `code !== 0` holds, so the exit handler schedules an
auto-restart `RESTART_DELAY_MS` (5 s) later, the service ends `stopped`,
and no code path (in particular not `stopService`, which keeps no timer
handle) cancels that restart — contradicting the spec requirement that a
stop in flight cancels any pending auto-restart. -/
theorem stop_schedules_uncancelled_restart :
    (stopRunningService demoRunningService none).2.2 = true ∧
    (stopRunningService demoRunningService none).1.status.status = .stopped ∧
    RESTART_DELAY_MS = 5000 :=
  ⟨rfl, rfl, rfl⟩

/-- A service definition without auto-restart, for the uptime scenario. -/
def demoConfig : SvcConfig :=
  { id := "svc2", name := "Uptime", command := "/bin/up", args := []
    restartOnFailure := false }

/-- The stored record after: register, start at t=1000 (spawn ok, pid 42),
status query at t=5000 (which writes `uptime = 4000` into the stored
status), then child exit. -/
def uptimeDemoStopped : ManagedService :=
  (onServiceExit
    ((getStatus ((startService (registerService demoConfig) (.ok 42) 1000).1) 5000).2)
    (some 0)).1

/-- C8 counterexample: a status query at t=9000 on the stopped service
still reports `uptime = some 4000` — the stale value written by the query
at t=5000 — although the claim says `uptime` is undefined whenever the
service is stopped. -/
theorem uptime_stale_counterexample :
    (getStatus uptimeDemoStopped 9000).1.status = .stopped ∧
    (getStatus uptimeDemoStopped 9000).1.uptime = some 4000 ∧
    uptimeDemoStopped.startTime = none :=
  ⟨rfl, rfl, rfl⟩

/-- C8 (amended).  While a start time is recorded (the running state), a
status query returns `uptime = now - startTime`; when no start time is
recorded (stopped), the query returns the stored status unchanged, so
`uptime` keeps whatever value the most recent query while running wrote
(and is undefined only if no such query happened). -/
theorem uptime_query_behavior :
    (∀ (svc : ManagedService) (now t0 : Nat), svc.startTime = some t0 → t0 ≠ 0 →
      (getStatus svc now).1.uptime = some (now - t0)) ∧
    (∀ (svc : ManagedService) (now : Nat), svc.startTime = none →
      (getStatus svc now).1 = svc.status) := by
  constructor
  · intro svc now t0 h ht0
    rw [getStatus, if_pos (by rw [h]; simpa [jsTruthy] using ht0), h]
    rfl
  · intro svc now h
    rw [getStatus, if_neg (by rw [h]; simp [jsTruthy])]

/-- Witness for `uptime_query_behavior`: the running demo service at query
time 5000, and the stopped record at 9000. -/
theorem uptime_query_behavior_witness :
    (getStatus ((startService (registerService demoConfig) (.ok 42) 1000).1) 5000).1.uptime =
      some (5000 - 1000) ∧
    (getStatus uptimeDemoStopped 9000).1 = uptimeDemoStopped.status :=
  ⟨uptime_query_behavior.1 ((startService (registerService demoConfig) (.ok 42) 1000).1)
      5000 1000 rfl (by decide),
   uptime_query_behavior.2 uptimeDemoStopped 9000 rfl⟩

/-- C10.  Starting a service already in the `running` state is a no-op:
the stored record (status, `startTime`, `pid`, `process`) is returned
unchanged, no `service:status` event is emitted, and no child is
spawned. -/
theorem start_running_noop (svc : ManagedService) (spawnResult : Except String Nat)
    (now : Nat) (h : svc.status.status = .running) :
    startService svc spawnResult now = (svc, [], false) := by
  rw [startService, if_pos h]

/-- Witness for `start_running_noop` at a concrete running service. -/
theorem start_running_noop_witness :
    startService demoRunningService (.ok 9) 123 = (demoRunningService, [], false) :=
  start_running_noop demoRunningService (.ok 9) 123 rfl

end PersonalAgent
